import Mathlib

/-
  Shallow embedding of the drag-to-scroll controller implemented by the
  useDraggable hook (src/src/index.tsx). Numbers are modelled by the
  rationals, except where the source uses a base-10 logarithm, which forces
  the reals. Styles are strings; the DOM container, its children, the
  mutable closure state and the three timers are explicit records.
-/

namespace UseDraggable

/-- Inline style state of one child element of the container, together with
the flag telling whether the click-suppressing capture listener is attached
to it (addEventListener / removeEventListener on the click event). -/
structure ChildStyle where
  cursor : String
  transform : String
  transition : String
  suppressClick : Bool
  deriving DecidableEq

/-- The container element: scroll offsets, extents, computed overflow
styles, the inline cursor style, and the ordered child list. -/
structure Container where
  scrollLeft : ℚ
  scrollTop : ℚ
  scrollWidth : ℚ
  clientWidth : ℚ
  scrollHeight : ℚ
  clientHeight : ℚ
  overflowX : String
  overflowY : String
  cursor : String
  children : List ChildStyle
  deriving DecidableEq

/-- The mutable record internalState.current of the hook (lines 28 to 40 of
src/src/index.tsx). -/
structure InternalState where
  isMouseDown : Bool
  isDraggingX : Bool
  isDraggingY : Bool
  initialMouseX : ℚ
  initialMouseY : ℚ
  lastMouseX : ℚ
  lastMouseY : ℚ
  scrollSpeedX : ℚ
  scrollSpeedY : ℚ
  lastScrollX : ℚ
  lastScrollY : ℚ
  deriving DecidableEq

/-- The four geometry closure variables of the hook (lines 42 to 45):
scrollability flags and maximal scroll offsets. -/
structure Geometry where
  isScrollableAlongX : Bool
  isScrollableAlongY : Bool
  maxHorizontalScroll : ℚ
  maxVerticalScroll : ℚ
  deriving DecidableEq

/-- The style snapshot closure variables of the hook (lines 46 to 49),
captured by the layout effect at mount. -/
structure StyleSnapshot where
  cursorStyleOfWrapperElement : String
  cursorStyleOfChildElements : List String
  transformStyleOfChildElements : List String
  transitionStyleOfChildElements : List String
  deriving DecidableEq

/-- Whether each of the three timers of the hook (lines 166 to 168) is
currently registered: the two momentum intervals and the one-shot
snap-back timeout. -/
structure Timers where
  keepMovingX : Bool
  keepMovingY : Bool
  rubberBandAnimationTimer : Bool
  deriving DecidableEq

/-- Result of one momentum interval callback on one axis: the container,
the internal state, and whether the callback cleared its own interval. -/
structure MomentumTickResult where
  container : Option Container
  state : InternalState
  cleared : Bool
  deriving DecidableEq

/-- Result of the mouse-up handler (and of callbackMomentum): container,
internal state, timers, and whether callbackMomentum executed its body. -/
structure HandlerResult where
  container : Option Container
  state : InternalState
  timers : Timers
  momentumStarted : Bool
  deriving DecidableEq

/-- Tick period in milliseconds, line 51: (1 / 60) * 1000. -/
def timing : ℚ := (1 / 60) * 1000

/-- Stop threshold of the momentum loops, line 173. -/
def minimumSpeedToTriggerMomentum : ℚ := 0.05

/-- Geometry computation of the mount layout effect, lines 55 to 61:
scrollability from the computed overflow styles, maxima as content extent
minus visible extent. -/
def computeGeometry (c : Container) : Geometry where
  isScrollableAlongX := c.overflowX = "scroll"
  isScrollableAlongY := c.overflowY = "scroll"
  maxHorizontalScroll := c.scrollWidth - c.clientWidth
  maxVerticalScroll := c.scrollHeight - c.clientHeight

/-- Style capture of the mount layout effect, lines 63 to 87: wrapper
cursor, and per child the cursor, transform and transition, where a
computed value of none is stored as the empty string. -/
def captureStyleSnapshot (c : Container) : StyleSnapshot where
  cursorStyleOfWrapperElement := c.cursor
  cursorStyleOfChildElements := c.children.map (fun ch => ch.cursor)
  transformStyleOfChildElements :=
    c.children.map (fun ch => if ch.transform = "none" then "" else ch.transform)
  transitionStyleOfChildElements :=
    c.children.map (fun ch => if ch.transition = "none" then "" else ch.transition)

/-- Live-scroll applier runScroll, lines 91 to 105: with a present
container, add scrollSpeed times timing to each scroll offset, write the
offsets back and record them in lastScrollX and lastScrollY; with an
absent container do nothing. -/
def runScroll : Option Container → InternalState → Option Container × InternalState
  | none, s => (none, s)
  | some c, s =>
    let dx := s.scrollSpeedX * timing
    let dy := s.scrollSpeedY * timing
    let offsetX := c.scrollLeft + dx
    let offsetY := c.scrollTop + dy
    (some { c with scrollLeft := offsetX, scrollTop := offsetY },
      { s with lastScrollX := offsetX, lastScrollY := offsetY })

/-- Cursor write of the mouse-move handler on the children, lines 330 to
335: every child gets the grabbing cursor. -/
def grabbingCursorWrite (children : List ChildStyle) : List ChildStyle :=
  children.map (fun ch => { ch with cursor := "grabbing" })

/-- Style write of rubberBandCallback, lines 143 to 150: every child gets
a translate3d transform of the two computed displacements and a
zero-duration transition. The displacement numbers are computed over the
reals (see rubberBandDisplacement below); here they arrive as the two
arguments and are rendered into the template string. -/
def rubberBandStyleWrite (displacementX displacementY : ℚ)
    (children : List ChildStyle) : List ChildStyle :=
  children.map (fun ch =>
    { ch with
      transform := "translate3d(" ++ toString displacementX ++ "px, " ++
        toString displacementY ++ "px, 0px)"
      transition := "transform 0ms" })

/-- Duration of the snap-back transition, line 225. -/
def transitionDurationInMilliseconds : ℕ := 250

/-- Snap-back style write of callbackMomentum, lines 227 to 232: every
child gets the neutral transform and a 250 ms transition. -/
def momentumSnapBackWrite (children : List ChildStyle) : List ChildStyle :=
  children.map (fun ch =>
    { ch with
      transform := "translate3d(0px, 0px, 0px)"
      transition := "transform " ++ toString transitionDurationInMilliseconds ++ "ms" })

/-- Indexed traversal of recoverChildStyle, lines 156 to 163: child number
i gets the captured transform and transition at index i. An index outside
the captured lists yields the empty string. -/
def recoverChildStyleAux (transforms transitions : List String) :
    ℕ → List ChildStyle → List ChildStyle
  | _, [] => []
  | i, ch :: rest =>
    { ch with
      transform := transforms.getD i ""
      transition := transitions.getD i "" }
      :: recoverChildStyleAux transforms transitions (i + 1) rest

/-- Timer callback recoverChildStyle, lines 153 to 164: write every
captured child transform and transition back by position. -/
def recoverChildStyle (snap : StyleSnapshot) (c : Option Container) : Option Container :=
  match c with
  | none => none
  | some c =>
    some { c with
      children := recoverChildStyleAux snap.transformStyleOfChildElements
        snap.transitionStyleOfChildElements 0 c.children }

/-- Indexed traversal of the cursor restoration in onMouseUp, lines 297 to
302: child number i gets the captured cursor at index i. -/
def restoreCursorsAux (cursorStyles : List String) :
    ℕ → List ChildStyle → List ChildStyle
  | _, [] => []
  | i, ch :: rest =>
    { ch with cursor := cursorStyles.getD i "" }
      :: restoreCursorsAux cursorStyles (i + 1) rest

/-- Click-suppressor update of onMouseUp, lines 281 to 289: attach the
capturing click listener to every child when the drag is confirmed,
remove it from every child otherwise. -/
def setClickSuppressors (attached : Bool) (children : List ChildStyle) : List ChildStyle :=
  children.map (fun ch => { ch with suppressClick := attached })

/-- Local boolean hasReachedHorizontalEdges of the X momentum interval,
lines 182 to 184: the scroll offset is at or below zero, or at or above
the horizontal maximum. The scrollability flag is not consulted here. -/
def hasReachedHorizontalEdges (g : Geometry) (c : Container) : Bool :=
  decide (c.scrollLeft ≤ 0) || decide (c.scrollLeft ≥ g.maxHorizontalScroll)

/-- Local boolean hasReachedVerticalEdges of the Y momentum interval,
lines 205 to 207. -/
def hasReachedVerticalEdges (g : Geometry) (c : Container) : Bool :=
  decide (c.scrollTop ≤ 0) || decide (c.scrollTop ≥ g.maxVerticalScroll)

/-- Body of the keepMovingX interval of callbackMomentum, lines 175 to
196: with an absent container do nothing and keep the interval; otherwise
decay the X speed, evaluate the horizontal edges, apply runScroll, and
clear the interval, forcing the X speed to zero, when the decayed speed is
below the threshold, the mouse is down again, or a horizontal edge was
reached. -/
def keepMovingXTick (decayRate : ℚ) (g : Geometry) :
    Option Container → InternalState → MomentumTickResult
  | none, s => ⟨none, s, false⟩
  | some c, s =>
    let lastScrollSpeedX := s.scrollSpeedX
    let newScrollSpeedX := lastScrollSpeedX * decayRate
    let s1 := { s with scrollSpeedX := newScrollSpeedX }
    let edges := hasReachedHorizontalEdges g c
    let applied := runScroll (some c) s1
    if decide (|newScrollSpeedX| < minimumSpeedToTriggerMomentum) ||
        applied.2.isMouseDown || edges then
      ⟨applied.1, { applied.2 with scrollSpeedX := 0 }, true⟩
    else
      ⟨applied.1, applied.2, false⟩

/-- Body of the keepMovingY interval of callbackMomentum, lines 198 to
219, the vertical analogue of keepMovingXTick. -/
def keepMovingYTick (decayRate : ℚ) (g : Geometry) :
    Option Container → InternalState → MomentumTickResult
  | none, s => ⟨none, s, false⟩
  | some c, s =>
    let lastScrollSpeedY := s.scrollSpeedY
    let newScrollSpeedY := lastScrollSpeedY * decayRate
    let s1 := { s with scrollSpeedY := newScrollSpeedY }
    let edges := hasReachedVerticalEdges g c
    let applied := runScroll (some c) s1
    if decide (|newScrollSpeedY| < minimumSpeedToTriggerMomentum) ||
        applied.2.isMouseDown || edges then
      ⟨applied.1, { applied.2 with scrollSpeedY := 0 }, true⟩
    else
      ⟨applied.1, applied.2, false⟩

/-- Momentum starter callbackMomentum, lines 170 to 239: with an absent
container do nothing; otherwise register both momentum intervals, clear
both dragging flags, and, when the rubber-band effect is enabled, apply
the snap-back style write and register the one-shot snap-back timeout. -/
def callbackMomentum (applyRubberBandEffect : Bool) :
    Option Container → InternalState → Timers → HandlerResult
  | none, s, t => ⟨none, s, t, false⟩
  | some c, s, t =>
    let t1 := { t with keepMovingX := true, keepMovingY := true }
    let s1 := { s with isDraggingX := false, isDraggingY := false }
    if applyRubberBandEffect then
      ⟨some { c with children := momentumSnapBackWrite c.children }, s1,
        { t1 with rubberBandAnimationTimer := true }, true⟩
    else
      ⟨some c, s1, t1, true⟩

/-- The activeMouseButton option, line 8 of src/src/index.tsx. -/
inductive MouseButton
  | Left
  | Middle
  | Right
  deriving DecidableEq

/-- Button test getIsMousePressActive, lines 246 to 252. -/
def getIsMousePressActive (activeMouseButton : MouseButton) (buttonsCode : ℕ) : Bool :=
  (decide (activeMouseButton = MouseButton.Left) && decide (buttonsCode = 1)) ||
  (decide (activeMouseButton = MouseButton.Middle) && decide (buttonsCode = 4)) ||
  (decide (activeMouseButton = MouseButton.Right) && decide (buttonsCode = 2))

/-- Handler onMouseDown, lines 254 to 265: when the configured button is
pressed and the container is present, set isMouseDown and record the
press position as both the initial and the last mouse position. -/
def onMouseDown (activeMouseButton : MouseButton) (buttons : ℕ) (eX eY : ℚ) :
    Option Container → InternalState → InternalState
  | none, s => s
  | some _, s =>
    if getIsMousePressActive activeMouseButton buttons then
      { s with
        isMouseDown := true
        lastMouseX := eX
        lastMouseY := eY
        initialMouseX := eX
        initialMouseY := eY }
    else s

/-- Handler onMouseMove, lines 309 to 350: when the mouse is down and the
container is present, update the last mouse position, derive both scroll
speeds from the position delta divided by timing, set both dragging
flags, write the grabbing cursor on the container and every child, apply
the rubber-band style write when at an edge of a scrollable axis with the
effect enabled, and finally apply runScroll. The two rubber-band
displacement numbers are computed over the reals by rubberBandCallback
(see rubberBandDisplacement); they enter here as the arguments rbDX and
rbDY and only feed the style write. -/
def onMouseMove (applyRubberBandEffect : Bool) (rbDX rbDY : ℚ) (g : Geometry)
    (eX eY : ℚ) :
    Option Container → InternalState → Option Container × InternalState
  | none, s => (none, s)
  | some c, s =>
    if s.isMouseDown then
      let dx := s.lastMouseX - eX
      let dy := s.lastMouseY - eY
      let s1 := { s with
        lastMouseX := eX
        lastMouseY := eY
        scrollSpeedX := dx / timing
        scrollSpeedY := dy / timing
        isDraggingX := true
        isDraggingY := true }
      let c1 := { c with cursor := "grabbing", children := grabbingCursorWrite c.children }
      let isAtLeft := decide (c1.scrollLeft ≤ 0) && g.isScrollableAlongX
      let isAtRight := decide (c1.scrollLeft ≥ g.maxHorizontalScroll) && g.isScrollableAlongX
      let isAtTop := decide (c1.scrollTop ≤ 0) && g.isScrollableAlongY
      let isAtBottom := decide (c1.scrollTop ≥ g.maxVerticalScroll) && g.isScrollableAlongY
      let isAtAnEdge := isAtLeft || isAtRight || isAtTop || isAtBottom
      let c2 :=
        if isAtAnEdge && applyRubberBandEffect then
          { c1 with children := rubberBandStyleWrite rbDX rbDY c1.children }
        else c1
      runScroll (some c2) s1
    else (some c, s)

/-- Handler onMouseUp, lines 267 to 307: with an absent container do
nothing. Otherwise the drag is confirmed when a dragging flag is set and
the displacement from the initial mouse position exceeds safeDisplacement
on some axis; attach the click suppressor to every child exactly when
confirmed (remove it otherwise), reset isMouseDown and the last mouse
position, restore the captured wrapper and child cursors, and invoke
callbackMomentum exactly when confirmed. -/
def onMouseUp (safeDisplacement : ℚ) (applyRubberBandEffect : Bool)
    (snap : StyleSnapshot) (eX eY : ℚ) :
    Option Container → InternalState → Timers → HandlerResult
  | none, s, t => ⟨none, s, t, false⟩
  | some c, s, t =>
    let isDragging := s.isDraggingX || s.isDraggingY
    let dx := s.initialMouseX - eX
    let dy := s.initialMouseY - eY
    let isMotionIntentional :=
      decide (|dx| > safeDisplacement) || decide (|dy| > safeDisplacement)
    let isDraggingConfirmed := isDragging && isMotionIntentional
    let children1 := setClickSuppressors isDraggingConfirmed c.children
    let s1 := { s with isMouseDown := false, lastMouseX := 0, lastMouseY := 0 }
    let c1 := { c with
      cursor := snap.cursorStyleOfWrapperElement
      children := restoreCursorsAux snap.cursorStyleOfChildElements 0 children1 }
    if isDraggingConfirmed then
      callbackMomentum applyRubberBandEffect (some c1) s1 t
    else
      ⟨some c1, s1, t, false⟩

/-- Handler handleResize, lines 352 to 357: with a present container
recompute the two scroll maxima from the current extents; the
scrollability flags are not touched. -/
def handleResize : Option Container → Geometry → Geometry
  | none, g => g
  | some c, g =>
    { g with
      maxHorizontalScroll := c.scrollWidth - c.clientWidth
      maxVerticalScroll := c.scrollHeight - c.clientHeight }

/-- Effect cleanup, lines 365 to 373: clear both momentum intervals and
the snap-back timeout (the event listeners are also removed there). -/
def unmountEffectCleanup (_ : Timers) : Timers :=
  ⟨false, false, false⟩

/-- Iteration of the keepMovingX interval body: state of the X momentum
loop after n ticks, starting from the given container and state. -/
def momentumLoopX (decayRate : ℚ) (g : Geometry)
    (start : Option Container × InternalState) : ℕ → Option Container × InternalState
  | 0 => start
  | n + 1 =>
    let prev := momentumLoopX decayRate g start n
    let out := keepMovingXTick decayRate g prev.1 prev.2
    (out.container, out.state)

/-- Click-suppressor flags of the children of an optional container. -/
def suppressorsOf : Option Container → List Bool
  | none => []
  | some c => c.children.map (fun ch => ch.suppressClick)

/-- Cursor styles of the children of an optional container. -/
def cursorsOf : Option Container → List String
  | none => []
  | some c => c.children.map (fun ch => ch.cursor)

/-- Cursor style of an optional container itself. -/
def wrapperCursorOf : Option Container → Option String
  | none => none
  | some c => some c.cursor

/-- Transform styles of the children of an optional container. -/
def transformsOf : Option Container → List String
  | none => []
  | some c => c.children.map (fun ch => ch.transform)

/-- Transition styles of the children of an optional container. -/
def transitionsOf : Option Container → List String
  | none => []
  | some c => c.children.map (fun ch => ch.transition)

/-- Displacement computation of rubberBandCallback, lines 107 to 141, over
the reals: the deltas are the event position minus the initial mouse
position, and each branch of the scrollability case split applies the
logarithmic formula to its axis, the remaining displacements staying
zero. -/
noncomputable def rubberBandDisplacement (isScrollableAlongX isScrollableAlongY : Bool)
    (eX eY initialMouseX initialMouseY clientWidth clientHeight : ℝ) : ℝ × ℝ :=
  let dx := eX - initialMouseX
  let dy := eY - initialMouseY
  if isScrollableAlongX && isScrollableAlongY then
    (0.3 * clientWidth * Real.sign dx *
        Real.logb 10 (1.0 + (0.5 * |dx|) / clientWidth),
      0.3 * clientHeight * Real.sign dy *
        Real.logb 10 (1.0 + (0.5 * |dy|) / clientHeight))
  else if isScrollableAlongX then
    (0.3 * clientWidth * Real.sign dx *
        Real.logb 10 (1.0 + (0.5 * |dx|) / clientWidth), 0)
  else if isScrollableAlongY then
    (0, 0.3 * clientHeight * Real.sign dy *
        Real.logb 10 (1.0 + (0.5 * |dy|) / clientHeight))
  else (0, 0)

/-- Follows the words of the spec for one axis: on a scrollable axis the
displacement is 0.3 times size times the sign of the delta times the
base-10 logarithm of 1 plus half the absolute delta over size; an axis
that is not scrollable contributes zero. Stated for comparison with
rubberBandDisplacement. -/
noncomputable def specAxisRubberBandDisplacement (scrollable : Bool)
    (delta size : ℝ) : ℝ :=
  if scrollable then
    0.3 * size * Real.sign delta * Real.logb 10 (1 + 0.5 * |delta| / size)
  else 0

/-- Follows the words of the spec for the momentum stop decision on the X
axis: stop exactly when the decayed speed is below the threshold, or the
pointer is pressed again, or the axis is at an edge, where being at an
edge requires the axis to be scrollable and the offset to be at or
outside a bound. Stated for comparison with keepMovingXTick. -/
def specMomentumStopX (decayRate : ℚ) (g : Geometry) (c : Container)
    (s : InternalState) : Bool :=
  decide (|s.scrollSpeedX * decayRate| < minimumSpeedToTriggerMomentum) ||
  s.isMouseDown ||
  (g.isScrollableAlongX &&
    (decide (c.scrollLeft ≤ 0) || decide (c.scrollLeft ≥ g.maxHorizontalScroll)))

/-- Iteration of the keepMovingY interval body: state of the Y momentum
loop after n ticks, starting from the given container and state. -/
def momentumLoopY (decayRate : ℚ) (g : Geometry)
    (start : Option Container × InternalState) : ℕ → Option Container × InternalState
  | 0 => start
  | n + 1 =>
    let prev := momentumLoopY decayRate g start n
    let out := keepMovingYTick decayRate g prev.1 prev.2
    (out.container, out.state)

/-- Sample child used by concrete instances of the theorems below. -/
def demoChild : ChildStyle := ⟨"auto", "none", "none", false⟩

/-- Sample container: scrollable along X (overflow-x scroll, content wider
than the viewport), one child, sitting at the left edge. -/
def demoContainer : Container :=
  ⟨0, 0, 200, 100, 100, 100, "scroll", "hidden", "grab", [demoChild]⟩

/-- Sample internal state: the idle state right after mount. -/
def demoState : InternalState := ⟨false, false, false, 0, 0, 0, 0, 0, 0, 0, 0⟩

/-- Sample geometry: scrollable along X with maximum 100. -/
def demoGeometry : Geometry := ⟨true, false, 100, 0⟩

/-- Sample style snapshot: the one captured from the sample container. -/
def demoSnapshot : StyleSnapshot := captureStyleSnapshot demoContainer

/-- Sample timer state: no timer registered. -/
def demoTimers : Timers := ⟨false, false, false⟩

/-- Geometry with both scrollability flags off, used to exhibit that the
momentum stop decision ignores the flags. -/
def c4Geometry : Geometry := ⟨false, false, 100, 100⟩

/-- Internal state moving at speed 1 on both axes with the mouse up. -/
def c4State : InternalState := ⟨false, false, false, 0, 0, 0, 0, 1, 1, 0, 0⟩

/-- Stale geometry whose flags and maxima all differ from what a recompute
on the sample container would produce. -/
def c8Geometry : Geometry := ⟨false, false, 0, 0⟩

theorem restoreCursorsAux_suppressors (cs : List String) :
    ∀ (i : ℕ) (l : List ChildStyle),
      (restoreCursorsAux cs i l).map (fun ch => ch.suppressClick) =
        l.map (fun ch => ch.suppressClick)
  | _, [] => rfl
  | i, ch :: rest => by
    simp [restoreCursorsAux, restoreCursorsAux_suppressors cs (i + 1) rest]

theorem momentumSnapBackWrite_suppressors (l : List ChildStyle) :
    (momentumSnapBackWrite l).map (fun ch => ch.suppressClick) =
      l.map (fun ch => ch.suppressClick) := by
  simp [momentumSnapBackWrite, List.map_map]

theorem setClickSuppressors_map (b : Bool) (l : List ChildStyle) :
    (setClickSuppressors b l).map (fun ch => ch.suppressClick) =
      List.replicate l.length b := by
  induction l with
  | nil => rfl
  | cons ch rest ih => simp [setClickSuppressors, List.replicate] at ih ⊢; exact ih

theorem restoreCursorsAux_map_cursor (cs : List String) :
    ∀ (l : List ChildStyle) (i : ℕ), l.length + i = cs.length →
      (restoreCursorsAux cs i l).map (fun ch => ch.cursor) = cs.drop i
  | [], i, h => by
    simp only [List.length_nil, Nat.zero_add] at h
    subst h
    simp [restoreCursorsAux, List.drop_length]
  | ch :: rest, i, h => by
    simp only [List.length_cons] at h
    have hi : i < cs.length := by omega
    have hrec := restoreCursorsAux_map_cursor cs rest (i + 1) (by omega)
    simp only [restoreCursorsAux, List.map_cons, hrec]
    rw [List.getD_eq_getElem cs "" hi, List.drop_eq_getElem_cons hi]

theorem momentumSnapBackWrite_cursors (l : List ChildStyle) :
    (momentumSnapBackWrite l).map (fun ch => ch.cursor) =
      l.map (fun ch => ch.cursor) := by
  simp [momentumSnapBackWrite, List.map_map]

theorem setClickSuppressors_length (b : Bool) (l : List ChildStyle) :
    (setClickSuppressors b l).length = l.length := by
  simp [setClickSuppressors]

theorem recoverChildStyleAux_map_transform (t tr : List String) :
    ∀ (l : List ChildStyle) (i : ℕ), l.length + i = t.length →
      (recoverChildStyleAux t tr i l).map (fun ch => ch.transform) = t.drop i
  | [], i, h => by
    simp only [List.length_nil, Nat.zero_add] at h
    subst h
    simp [recoverChildStyleAux, List.drop_length]
  | ch :: rest, i, h => by
    simp only [List.length_cons] at h
    have hi : i < t.length := by omega
    have hrec := recoverChildStyleAux_map_transform t tr rest (i + 1) (by omega)
    simp only [recoverChildStyleAux, List.map_cons, hrec]
    rw [List.getD_eq_getElem t "" hi, List.drop_eq_getElem_cons hi]

theorem recoverChildStyleAux_map_transition (t tr : List String) :
    ∀ (l : List ChildStyle) (i : ℕ), l.length + i = tr.length →
      (recoverChildStyleAux t tr i l).map (fun ch => ch.transition) = tr.drop i
  | [], i, h => by
    simp only [List.length_nil, Nat.zero_add] at h
    subst h
    simp [recoverChildStyleAux, List.drop_length]
  | ch :: rest, i, h => by
    simp only [List.length_cons] at h
    have hi : i < tr.length := by omega
    have hrec := recoverChildStyleAux_map_transition t tr rest (i + 1) (by omega)
    simp only [recoverChildStyleAux, List.map_cons, hrec]
    rw [List.getD_eq_getElem tr "" hi, List.drop_eq_getElem_cons hi]

theorem restoreCursorsAux_length (cs : List String) :
    ∀ (i : ℕ) (l : List ChildStyle), (restoreCursorsAux cs i l).length = l.length
  | _, [] => rfl
  | i, ch :: rest => by
    simp [restoreCursorsAux, restoreCursorsAux_length cs (i + 1) rest]

theorem dragWrites_length (writes : List (ℚ × ℚ)) :
    ∀ l : List ChildStyle,
      (writes.foldl (fun l d => rubberBandStyleWrite d.1 d.2 (grabbingCursorWrite l)) l).length =
        l.length := by
  induction writes with
  | nil => intro l; rfl
  | cons w rest ih =>
    intro l
    simp only [List.foldl_cons]
    rw [ih]
    simp [rubberBandStyleWrite, grabbingCursorWrite]

theorem keepMovingXTick_some (r : ℚ) (g : Geometry) (c : Container) (s : InternalState) :
    ∃ c2, (keepMovingXTick r g (some c) s).container = some c2 := by
  simp only [keepMovingXTick, runScroll]
  split <;> exact ⟨_, rfl⟩

theorem keepMovingYTick_some (r : ℚ) (g : Geometry) (c : Container) (s : InternalState) :
    ∃ c2, (keepMovingYTick r g (some c) s).container = some c2 := by
  simp only [keepMovingYTick, runScroll]
  split <;> exact ⟨_, rfl⟩

theorem keepMovingXTick_speed (r : ℚ) (g : Geometry) (c : Container) (s : InternalState) :
    (keepMovingXTick r g (some c) s).state.scrollSpeedX =
      (if (keepMovingXTick r g (some c) s).cleared then 0 else s.scrollSpeedX * r) := by
  simp only [keepMovingXTick, hasReachedHorizontalEdges, runScroll]
  split <;> simp

theorem keepMovingYTick_speed (r : ℚ) (g : Geometry) (c : Container) (s : InternalState) :
    (keepMovingYTick r g (some c) s).state.scrollSpeedY =
      (if (keepMovingYTick r g (some c) s).cleared then 0 else s.scrollSpeedY * r) := by
  simp only [keepMovingYTick, hasReachedVerticalEdges, runScroll]
  split <;> simp

theorem momentumLoopX_some (r : ℚ) (g : Geometry) (c0 : Container) (s0 : InternalState) :
    ∀ n : ℕ, ∃ c, (momentumLoopX r g (some c0, s0) n).1 = some c := by
  intro n
  induction n with
  | zero => exact ⟨c0, rfl⟩
  | succ n ih =>
    obtain ⟨c, hc⟩ := ih
    simp only [momentumLoopX, hc]
    exact keepMovingXTick_some r g c _

theorem momentumLoopY_some (r : ℚ) (g : Geometry) (c0 : Container) (s0 : InternalState) :
    ∀ n : ℕ, ∃ c, (momentumLoopY r g (some c0, s0) n).1 = some c := by
  intro n
  induction n with
  | zero => exact ⟨c0, rfl⟩
  | succ n ih =>
    obtain ⟨c, hc⟩ := ih
    simp only [momentumLoopY, hc]
    exact keepMovingYTick_some r g c _

theorem abs_mul_pow_lt_threshold (s r m : ℚ) (hm : 0 < m) (hr0 : 0 < r) (hr1 : r < 1) :
    ∃ n : ℕ, |s * r ^ n| < m := by
  obtain ⟨n, hn⟩ := exists_pow_lt_of_lt_one (x := m / (|s| + 1)) (y := r) (by positivity) hr1
  refine ⟨n, ?_⟩
  have habs : |s * r ^ n| = |s| * r ^ n := by
    rw [abs_mul, abs_pow, abs_of_pos hr0]
  rw [habs]
  have h1 : |s| * r ^ n ≤ |s| * (m / (|s| + 1)) :=
    mul_le_mul_of_nonneg_left (le_of_lt hn) (abs_nonneg s)
  have h2 : |s| * (m / (|s| + 1)) < m := by
    rw [div_eq_mul_inv]
    have hlt : |s| < |s| + 1 := by linarith
    have hpos : (0:ℚ) < |s| + 1 := by positivity
    calc |s| * (m * (|s| + 1)⁻¹) = m * (|s| / (|s| + 1)) := by ring
    _ < m * 1 := by
        apply mul_lt_mul_of_pos_left _ hm
        rw [div_lt_one hpos]
        exact hlt
    _ = m := mul_one m
  linarith

/-- C1: with the container present, runScroll writes, on each axis, the
pre-call scroll offset plus scrollSpeed times the tick period, and records
both new offsets in lastScrollX and lastScrollY; with the container absent
the call changes nothing. -/
theorem runScroll_applies_speed_and_is_noop_when_absent (c : Container) (s : InternalState) :
    runScroll (some c) s =
      (some { c with
          scrollLeft := c.scrollLeft + s.scrollSpeedX * timing
          scrollTop := c.scrollTop + s.scrollSpeedY * timing },
        { s with
          lastScrollX := c.scrollLeft + s.scrollSpeedX * timing
          lastScrollY := c.scrollTop + s.scrollSpeedY * timing })
      ∧ runScroll none s = (none, s) := ⟨rfl, rfl⟩

/-- C2: on mouse-up with the container present, callbackMomentum runs and
the click suppressor ends up attached to every child exactly when a
dragging flag is set and the displacement from the initial mouse position
strictly exceeds safeDisplacement on at least one axis; otherwise momentum
is not started and every suppressor flag is cleared. -/
theorem onMouseUp_confirm (safe : ℚ) (rubber : Bool) (snap : StyleSnapshot)
    (eX eY : ℚ) (c : Container) (s : InternalState) (t : Timers) :
    (onMouseUp safe rubber snap eX eY (some c) s t).momentumStarted =
      ((s.isDraggingX || s.isDraggingY) &&
        (decide (|s.initialMouseX - eX| > safe) || decide (|s.initialMouseY - eY| > safe))) ∧
    suppressorsOf (onMouseUp safe rubber snap eX eY (some c) s t).container =
      List.replicate c.children.length
        ((s.isDraggingX || s.isDraggingY) &&
          (decide (|s.initialMouseX - eX| > safe) || decide (|s.initialMouseY - eY| > safe))) := by
  simp only [onMouseUp]
  split <;> rename_i h
  · simp only [callbackMomentum]
    split <;> rename_i hr
    · constructor
      · simp_all
      · simp_all [suppressorsOf, momentumSnapBackWrite_suppressors,
          restoreCursorsAux_suppressors, setClickSuppressors_map]
    · constructor
      · simp_all
      · simp_all [suppressorsOf, restoreCursorsAux_suppressors, setClickSuppressors_map]
  · constructor
    · simp_all
    · simp_all [suppressorsOf, restoreCursorsAux_suppressors, setClickSuppressors_map]

/-- C3: for a decay rate r with 0 < r < 1, the per-axis momentum loop,
as long as no tick has cleared its own interval, carries speed equal to
the initial speed times r to the n after n ticks; moreover some n brings
the absolute speed below the stop threshold, at which point the next tick
clears the interval. Both axes are covered. -/
theorem momentum_decay_and_termination (r : ℚ) (g : Geometry) (c0 : Container)
    (s0 : InternalState) (hr0 : 0 < r) (hr1 : r < 1) :
    (∀ n : ℕ,
      (∀ k, k < n → (keepMovingXTick r g (momentumLoopX r g (some c0, s0) k).1
          (momentumLoopX r g (some c0, s0) k).2).cleared = false) →
      (momentumLoopX r g (some c0, s0) n).2.scrollSpeedX = s0.scrollSpeedX * r ^ n) ∧
    (∀ n : ℕ,
      (∀ k, k < n → (keepMovingYTick r g (momentumLoopY r g (some c0, s0) k).1
          (momentumLoopY r g (some c0, s0) k).2).cleared = false) →
      (momentumLoopY r g (some c0, s0) n).2.scrollSpeedY = s0.scrollSpeedY * r ^ n) ∧
    (∃ n : ℕ, |s0.scrollSpeedX * r ^ n| < minimumSpeedToTriggerMomentum) ∧
    (∃ n : ℕ, |s0.scrollSpeedY * r ^ n| < minimumSpeedToTriggerMomentum) ∧
    (∀ (c : Container) (s : InternalState),
      |s.scrollSpeedX * r| < minimumSpeedToTriggerMomentum →
        (keepMovingXTick r g (some c) s).cleared = true) ∧
    (∀ (c : Container) (s : InternalState),
      |s.scrollSpeedY * r| < minimumSpeedToTriggerMomentum →
        (keepMovingYTick r g (some c) s).cleared = true) := by
  have hmin : (0:ℚ) < minimumSpeedToTriggerMomentum := by
    norm_num [minimumSpeedToTriggerMomentum]
  refine ⟨?_, ?_, ?_, ?_, ?_, ?_⟩
  · intro n
    induction n with
    | zero => intro _; simp [momentumLoopX]
    | succ n ih =>
      intro hstop
      have hn := ih (fun k hk => hstop k (Nat.lt_succ_of_lt hk))
      obtain ⟨c, hc⟩ := momentumLoopX_some r g c0 s0 n
      have hcl := hstop n (Nat.lt_succ_self n)
      rw [hc] at hcl
      have hsp := keepMovingXTick_speed r g c (momentumLoopX r g (some c0, s0) n).2
      rw [hcl] at hsp
      simp only [if_false, Bool.false_eq_true] at hsp
      simp only [momentumLoopX, hc, hsp, hn, pow_succ]
      ring
  · intro n
    induction n with
    | zero => intro _; simp [momentumLoopY]
    | succ n ih =>
      intro hstop
      have hn := ih (fun k hk => hstop k (Nat.lt_succ_of_lt hk))
      obtain ⟨c, hc⟩ := momentumLoopY_some r g c0 s0 n
      have hcl := hstop n (Nat.lt_succ_self n)
      rw [hc] at hcl
      have hsp := keepMovingYTick_speed r g c (momentumLoopY r g (some c0, s0) n).2
      rw [hcl] at hsp
      simp only [if_false, Bool.false_eq_true] at hsp
      simp only [momentumLoopY, hc, hsp, hn, pow_succ]
      ring
  · exact abs_mul_pow_lt_threshold s0.scrollSpeedX r _ hmin hr0 hr1
  · exact abs_mul_pow_lt_threshold s0.scrollSpeedY r _ hmin hr0 hr1
  · intro c s h
    simp [keepMovingXTick, runScroll, h]
  · intro c s h
    simp [keepMovingYTick, runScroll, h]

/-- C3 witness: the theorem applied at decay rate 0.95 and the sample
container, state and geometry. -/
theorem momentum_decay_and_termination_witness :
    ((0:ℚ) < 0.95 ∧ (0.95:ℚ) < 1) ∧
    ((∀ n : ℕ,
      (∀ k, k < n → (keepMovingXTick 0.95 demoGeometry
          (momentumLoopX 0.95 demoGeometry (some demoContainer, demoState) k).1
          (momentumLoopX 0.95 demoGeometry (some demoContainer, demoState) k).2).cleared = false) →
      (momentumLoopX 0.95 demoGeometry (some demoContainer, demoState) n).2.scrollSpeedX =
        demoState.scrollSpeedX * 0.95 ^ n) ∧
    (∀ n : ℕ,
      (∀ k, k < n → (keepMovingYTick 0.95 demoGeometry
          (momentumLoopY 0.95 demoGeometry (some demoContainer, demoState) k).1
          (momentumLoopY 0.95 demoGeometry (some demoContainer, demoState) k).2).cleared = false) →
      (momentumLoopY 0.95 demoGeometry (some demoContainer, demoState) n).2.scrollSpeedY =
        demoState.scrollSpeedY * 0.95 ^ n) ∧
    (∃ n : ℕ, |demoState.scrollSpeedX * 0.95 ^ n| < minimumSpeedToTriggerMomentum) ∧
    (∃ n : ℕ, |demoState.scrollSpeedY * 0.95 ^ n| < minimumSpeedToTriggerMomentum) ∧
    (∀ (c : Container) (s : InternalState),
      |s.scrollSpeedX * 0.95| < minimumSpeedToTriggerMomentum →
        (keepMovingXTick 0.95 demoGeometry (some c) s).cleared = true) ∧
    (∀ (c : Container) (s : InternalState),
      |s.scrollSpeedY * 0.95| < minimumSpeedToTriggerMomentum →
        (keepMovingYTick 0.95 demoGeometry (some c) s).cleared = true)) :=
  ⟨⟨by norm_num, by norm_num⟩,
    momentum_decay_and_termination 0.95 demoGeometry demoContainer demoState
      (by norm_num) (by norm_num)⟩

/-- C4 counterexample: with both scrollability flags off, an offset at the
left bound, speed 1 and decay rate 0.95, the X momentum tick clears its
interval although the stop condition written in the spec, whose edge test
requires the axis to be scrollable, does not hold. -/
theorem keepMovingXTick_stops_despite_unscrollable_axis :
    (keepMovingXTick 0.95 c4Geometry (some demoContainer) c4State).cleared = true ∧
    specMomentumStopX 0.95 c4Geometry demoContainer c4State = false := by
  norm_num [keepMovingXTick, hasReachedHorizontalEdges, runScroll, specMomentumStopX,
    minimumSpeedToTriggerMomentum, c4Geometry, c4State, demoContainer, demoChild,
    abs_of_pos (show (0:ℚ) < 19/20 by norm_num)]

/-- C4 as amended: a momentum tick on an axis clears its interval and
forces the speed of that axis to zero exactly when the decayed speed is
below the threshold, or the mouse is down again, or the offset of that
axis is at or outside a bound, with no scrollability requirement; the
decision and the speed update of each axis depend only on the fields of
that axis. -/
theorem momentumTick_stop_decision (r : ℚ) (g : Geometry) (c : Container) (s : InternalState) :
    ((keepMovingXTick r g (some c) s).cleared = true ↔
      (|s.scrollSpeedX * r| < minimumSpeedToTriggerMomentum ∨ s.isMouseDown = true ∨
        c.scrollLeft ≤ 0 ∨ c.scrollLeft ≥ g.maxHorizontalScroll)) ∧
    (keepMovingXTick r g (some c) s).state.scrollSpeedX =
      (if (keepMovingXTick r g (some c) s).cleared then 0 else s.scrollSpeedX * r) ∧
    (keepMovingXTick r g (some c) s).state.scrollSpeedY = s.scrollSpeedY ∧
    ((keepMovingYTick r g (some c) s).cleared = true ↔
      (|s.scrollSpeedY * r| < minimumSpeedToTriggerMomentum ∨ s.isMouseDown = true ∨
        c.scrollTop ≤ 0 ∨ c.scrollTop ≥ g.maxVerticalScroll)) ∧
    (keepMovingYTick r g (some c) s).state.scrollSpeedY =
      (if (keepMovingYTick r g (some c) s).cleared then 0 else s.scrollSpeedY * r) ∧
    (keepMovingYTick r g (some c) s).state.scrollSpeedX = s.scrollSpeedX := by
  refine ⟨?_, keepMovingXTick_speed r g c s, ?_, ?_, keepMovingYTick_speed r g c s, ?_⟩
  · simp only [keepMovingXTick, hasReachedHorizontalEdges, runScroll]
    split <;> (rename_i h; simp_all; try tauto)
  · simp only [keepMovingXTick, hasReachedHorizontalEdges, runScroll]
    split <;> simp
  · simp only [keepMovingYTick, hasReachedVerticalEdges, runScroll]
    split <;> (rename_i h; simp_all; try tauto)
  · simp only [keepMovingYTick, hasReachedVerticalEdges, runScroll]
    split <;> simp

/-- C5: the displacement pair computed by the rubber-band callback equals,
on each axis, the logarithmic formula of the spec applied to the delta and
the visible extent of that axis when the axis is scrollable, and zero when
it is not. -/
theorem rubberBand_displacement_per_axis (sx sy : Bool) (eX eY iX iY w h : ℝ) :
    rubberBandDisplacement sx sy eX eY iX iY w h =
      (specAxisRubberBandDisplacement sx (eX - iX) w,
        specAxisRubberBandDisplacement sy (eY - iY) h) := by
  cases sx <;> cases sy <;>
    norm_num [rubberBandDisplacement, specAxisRubberBandDisplacement]

/-- C6: after capture at mount, any sequence of rubber-band style writes
with grabbing-cursor writes, the click-suppressor attachment and cursor
restoration of a confirmed release, the snap-back write at momentum start
and finally the recovery after the snap-back period, the transform and
transition of every child equal exactly the captured values, where a
computed value of none was captured as the empty string. -/
theorem fullInteraction_restores_child_styles (c0 : Container) (writes : List (ℚ × ℚ)) :
    transformsOf (recoverChildStyle (captureStyleSnapshot c0)
        (some { c0 with
          children := momentumSnapBackWrite (restoreCursorsAux
            (captureStyleSnapshot c0).cursorStyleOfChildElements 0
            (setClickSuppressors true (writes.foldl
              (fun l d => rubberBandStyleWrite d.1 d.2 (grabbingCursorWrite l))
              c0.children))) })) =
      c0.children.map (fun ch => if ch.transform = "none" then "" else ch.transform) ∧
    transitionsOf (recoverChildStyle (captureStyleSnapshot c0)
        (some { c0 with
          children := momentumSnapBackWrite (restoreCursorsAux
            (captureStyleSnapshot c0).cursorStyleOfChildElements 0
            (setClickSuppressors true (writes.foldl
              (fun l d => rubberBandStyleWrite d.1 d.2 (grabbingCursorWrite l))
              c0.children))) })) =
      c0.children.map (fun ch => if ch.transition = "none" then "" else ch.transition) := by
  have hlen : (momentumSnapBackWrite (restoreCursorsAux
      (captureStyleSnapshot c0).cursorStyleOfChildElements 0
      (setClickSuppressors true (writes.foldl
        (fun l d => rubberBandStyleWrite d.1 d.2 (grabbingCursorWrite l))
        c0.children)))).length = c0.children.length := by
    simp [momentumSnapBackWrite, restoreCursorsAux_length, setClickSuppressors_length,
      dragWrites_length]
  constructor
  · simp only [recoverChildStyle, transformsOf]
    have := recoverChildStyleAux_map_transform
      (captureStyleSnapshot c0).transformStyleOfChildElements
      (captureStyleSnapshot c0).transitionStyleOfChildElements
      (momentumSnapBackWrite (restoreCursorsAux
        (captureStyleSnapshot c0).cursorStyleOfChildElements 0
        (setClickSuppressors true (writes.foldl
          (fun l d => rubberBandStyleWrite d.1 d.2 (grabbingCursorWrite l))
          c0.children)))) 0
      (by simpa [captureStyleSnapshot] using hlen)
    simpa [captureStyleSnapshot] using this
  · simp only [recoverChildStyle, transitionsOf]
    have := recoverChildStyleAux_map_transition
      (captureStyleSnapshot c0).transformStyleOfChildElements
      (captureStyleSnapshot c0).transitionStyleOfChildElements
      (momentumSnapBackWrite (restoreCursorsAux
        (captureStyleSnapshot c0).cursorStyleOfChildElements 0
        (setClickSuppressors true (writes.foldl
          (fun l d => rubberBandStyleWrite d.1 d.2 (grabbingCursorWrite l))
          c0.children)))) 0
      (by simpa [captureStyleSnapshot] using hlen)
    simpa [captureStyleSnapshot] using this

/-- C7: on mouse-up with the container present and the child count equal
to the captured list, the wrapper cursor and the cursor of every child end
up equal to the captured values, whether or not the drag was confirmed. -/
theorem onMouseUp_restores_cursors (safe : ℚ) (rubber : Bool) (snap : StyleSnapshot)
    (eX eY : ℚ) (c : Container) (s : InternalState) (t : Timers)
    (h : c.children.length = snap.cursorStyleOfChildElements.length) :
    wrapperCursorOf (onMouseUp safe rubber snap eX eY (some c) s t).container =
      some snap.cursorStyleOfWrapperElement ∧
    cursorsOf (onMouseUp safe rubber snap eX eY (some c) s t).container =
      snap.cursorStyleOfChildElements := by
  have hkey : ∀ b : Bool, (restoreCursorsAux snap.cursorStyleOfChildElements 0
      (setClickSuppressors b c.children)).map (fun ch => ch.cursor) =
      snap.cursorStyleOfChildElements := by
    intro b
    have hlen : (setClickSuppressors b c.children).length + 0 =
        snap.cursorStyleOfChildElements.length := by
      simp [setClickSuppressors_length, h]
    simpa using restoreCursorsAux_map_cursor snap.cursorStyleOfChildElements
      (setClickSuppressors b c.children) 0 hlen
  simp only [onMouseUp]
  split <;> rename_i hc
  · simp only [callbackMomentum]
    split <;> rename_i hr
    · exact ⟨rfl, by simp only [cursorsOf, momentumSnapBackWrite_cursors, hkey]⟩
    · exact ⟨rfl, by simp only [cursorsOf, hkey]⟩
  · exact ⟨rfl, by simp only [cursorsOf, hkey]⟩

/-- C7 witness: the theorem applied to the sample container and the
snapshot captured from it. -/
theorem onMouseUp_restores_cursors_witness :
    demoContainer.children.length = demoSnapshot.cursorStyleOfChildElements.length ∧
    (wrapperCursorOf (onMouseUp 10 false demoSnapshot 0 0 (some demoContainer)
        demoState demoTimers).container = some demoSnapshot.cursorStyleOfWrapperElement ∧
      cursorsOf (onMouseUp 10 false demoSnapshot 0 0 (some demoContainer)
        demoState demoTimers).container = demoSnapshot.cursorStyleOfChildElements) :=
  ⟨rfl, onMouseUp_restores_cursors 10 false demoSnapshot 0 0 demoContainer
    demoState demoTimers rfl⟩

/-- C8 counterexample: a resize on the sample container leaves a stale
scrollability flag that differs from what a recompute produces, so resize
does not recompute the scrollability flags. -/
theorem handleResize_keeps_stale_scrollability :
    (handleResize (some demoContainer) c8Geometry).isScrollableAlongX = false ∧
    (computeGeometry demoContainer).isScrollableAlongX = true ∧
    (handleResize (some demoContainer) c8Geometry).isScrollableAlongX ≠
      (computeGeometry demoContainer).isScrollableAlongX := by
  exact ⟨rfl, by simp [computeGeometry, demoContainer],
    by simp [computeGeometry, demoContainer, handleResize, c8Geometry]⟩

/-- C8 as amended: every resize with the container present recomputes the
two scroll maxima from the current extents, leaves the scrollability flags
untouched, and subsequent edge detection compares against the recomputed
maxima; with the container absent resize changes nothing. -/
theorem handleResize_updates_maxima_only (c : Container) (g : Geometry) :
    handleResize (some c) g =
      { g with
        maxHorizontalScroll := c.scrollWidth - c.clientWidth
        maxVerticalScroll := c.scrollHeight - c.clientHeight } ∧
    handleResize none g = g ∧
    (∀ c' : Container, hasReachedHorizontalEdges (handleResize (some c) g) c' =
      (decide (c'.scrollLeft ≤ 0) || decide (c'.scrollLeft ≥ c.scrollWidth - c.clientWidth))) ∧
    (∀ c' : Container, hasReachedVerticalEdges (handleResize (some c) g) c' =
      (decide (c'.scrollTop ≤ 0) || decide (c'.scrollTop ≥ c.scrollHeight - c.clientHeight))) :=
  ⟨rfl, rfl, fun _ => rfl, fun _ => rfl⟩

/-- C9 counterexample: press at the origin, move to x equal 5, release
there: the displacement stays at or below the default safeDisplacement, so
the drag is not confirmed and momentum never starts, yet after the release
the X scroll speed is still nonzero while the mouse is up. -/
theorem unconfirmed_mouseUp_leaves_nonzero_speed :
    (onMouseUp 10 false demoSnapshot 5 0
        (onMouseMove false 0 0 demoGeometry 5 0 (some demoContainer)
          (onMouseDown MouseButton.Left 1 0 0 (some demoContainer) demoState)).1
        (onMouseMove false 0 0 demoGeometry 5 0 (some demoContainer)
          (onMouseDown MouseButton.Left 1 0 0 (some demoContainer) demoState)).2
        demoTimers).momentumStarted = false ∧
    (onMouseUp 10 false demoSnapshot 5 0
        (onMouseMove false 0 0 demoGeometry 5 0 (some demoContainer)
          (onMouseDown MouseButton.Left 1 0 0 (some demoContainer) demoState)).1
        (onMouseMove false 0 0 demoGeometry 5 0 (some demoContainer)
          (onMouseDown MouseButton.Left 1 0 0 (some demoContainer) demoState)).2
        demoTimers).state.isMouseDown = false ∧
    (onMouseUp 10 false demoSnapshot 5 0
        (onMouseMove false 0 0 demoGeometry 5 0 (some demoContainer)
          (onMouseDown MouseButton.Left 1 0 0 (some demoContainer) demoState)).1
        (onMouseMove false 0 0 demoGeometry 5 0 (some demoContainer)
          (onMouseDown MouseButton.Left 1 0 0 (some demoContainer) demoState)).2
        demoTimers).state.scrollSpeedX ≠ 0 := by
  norm_num [onMouseDown, onMouseMove, onMouseUp, getIsMousePressActive, runScroll,
    timing, demoContainer, demoState, demoGeometry, demoSnapshot, demoTimers, demoChild,
    callbackMomentum, setClickSuppressors, restoreCursorsAux, grabbingCursorWrite,
    captureStyleSnapshot]

/-- C9 as amended: the mouse-up handler never changes the scroll speeds,
so an unconfirmed release leaves them at their last drag values, possibly
nonzero; a speed is forced to zero on an axis exactly when a momentum tick
of that axis clears its interval. -/
theorem speeds_unchanged_by_mouseUp_and_zeroed_on_stop (safe : ℚ) (rubber : Bool)
    (snap : StyleSnapshot) (eX eY : ℚ) (c : Container) (s : InternalState) (t : Timers)
    (r : ℚ) (g : Geometry) :
    (onMouseUp safe rubber snap eX eY (some c) s t).state.scrollSpeedX = s.scrollSpeedX ∧
    (onMouseUp safe rubber snap eX eY (some c) s t).state.scrollSpeedY = s.scrollSpeedY ∧
    (keepMovingXTick r g (some c) s).state.scrollSpeedX =
      (if (keepMovingXTick r g (some c) s).cleared then 0 else s.scrollSpeedX * r) ∧
    (keepMovingYTick r g (some c) s).state.scrollSpeedY =
      (if (keepMovingYTick r g (some c) s).cleared then 0 else s.scrollSpeedY * r) := by
  refine ⟨?_, ?_, keepMovingXTick_speed r g c s, keepMovingYTick_speed r g c s⟩ <;>
    · simp only [onMouseUp, callbackMomentum]
      split
      · split <;> rfl
      · rfl

/-- C10: a momentum tick on either axis with the container absent leaves
the whole internal state unchanged and does not clear its own interval,
so the timer keeps firing as a no-op; the unmount cleanup clears both
intervals and the snap-back timeout. -/
theorem momentumTick_absent_container_keeps_timer (r : ℚ) (g : Geometry)
    (s : InternalState) (t : Timers) :
    keepMovingXTick r g none s = ⟨none, s, false⟩ ∧
    keepMovingYTick r g none s = ⟨none, s, false⟩ ∧
    unmountEffectCleanup t = ⟨false, false, false⟩ :=
  ⟨rfl, rfl, rfl⟩

end UseDraggable
